import Mathlib

/-!
Shallow embedding of the EcoGuardian automation/alerting decision engine and
statistical insights engine (Django app `ecoguardian`, files `views.py`,
`models.py`, and `ecoguardianapp/ai_processor.py`).

Sensor values, thresholds and timestamps are modelled as rationals (`ℚ`);
model timestamps count minutes, so `hour_of` recovers the hour of day.
Database tables are modelled as lists of records, Django querysets as list
filtering, and the default `Meta.ordering` together with `.first()` as a
stable sort followed by `head?`.  Python's `sorted` is stable, so it is
modelled by `List.insertionSort` (also stable).  Python's `round(x, k)`
differs from `round` on `ℚ` only at exact half-way ties, which no statement
below depends on.
-/

namespace EcoGuardian

/-- Alert kinds, mirroring `AlertLog.ALERT_TYPES` in `models.py`. -/
inductive AlertType where
  | TEMP_HIGH
  | NOISE_HIGH
  | AIR_POOR
  | ANOMALY
  | MULTIPLE
  deriving DecidableEq, Repr

/-- Mirror of the `SystemConfiguration` model fields used by the engine. -/
structure SystemConfiguration where
  temp_threshold : ℚ
  noise_threshold : ℚ
  air_quality_threshold : ℚ
  guard_phone : String
  admin_email : String
  auto_ac_enabled : Bool
  auto_ventilation_enabled : Bool
  alerts_enabled : Bool
  ai_analysis_enabled : Bool
  alert_cooldown_minutes : ℤ
  deriving DecidableEq, Repr

/-- Field defaults declared on the `SystemConfiguration` model. -/
def defaultConfig : SystemConfiguration :=
  { temp_threshold := 26
    noise_threshold := 60
    air_quality_threshold := 55
    guard_phone := "+254700000000"
    admin_email := "admin@uon.ac.ke"
    auto_ac_enabled := true
    auto_ventilation_enabled := true
    alerts_enabled := true
    ai_analysis_enabled := true
    alert_cooldown_minutes := 5 }

/-- Mirror of the `AlertLog` model rows created by `send_alert`. -/
structure AlertLog where
  data : Option ℕ
  alert_type : AlertType
  severity : String
  channel : String
  message : String
  recipient : String
  created_at : ℚ
  is_resolved : Bool
  deriving DecidableEq, Repr

/-- Mirror of the `ExamSchedule` model. -/
structure ExamSchedule where
  exam_name : String
  start_time : ℚ
  end_time : ℚ
  room : String
  is_active : Bool
  strict_noise_threshold : ℚ
  deriving DecidableEq, Repr

/-- Mirror of the `ControlDevice` model. -/
structure ControlDevice where
  name : String
  device_type : String
  location : String
  is_active : Bool
  last_activated : Option ℚ
  deriving DecidableEq, Repr

/-- Mirror of the `EnvironmentalData` model (one reading plus derived flags). -/
structure EnvironmentalData where
  id : ℕ
  timestamp : ℚ
  temperature : ℚ
  air_quality : ℚ
  noise_level : ℚ
  ai_score : Option ℚ
  anomaly_type : Option String
  is_anomaly : Bool
  ac_activated : Bool
  ventilation_activated : Bool
  alert_sent : Bool
  deriving DecidableEq, Repr

/-- Cooldown check `should_send_alert` (`views.py` 228-237): the alert may be
sent exactly when no `AlertLog` row of the same kind has
`created_at ≥ now - alert_cooldown_minutes` (the query uses `__gte`). -/
def should_send_alert (alert_type : AlertType) (config : SystemConfiguration)
    (logs : List AlertLog) (now : ℚ) : Bool :=
  let cooldown_time := now - (config.alert_cooldown_minutes : ℚ)
  !(logs.any fun a => decide (a.alert_type = alert_type) && decide (cooldown_time ≤ a.created_at))

/-- Python `np.mean` on a list of rationals. -/
def mean (l : List ℚ) : ℚ := l.sum / (l.length : ℚ)

/-- Python `round(x, 2)` (half-way ties aside, see the module comment). -/
def round2 (q : ℚ) : ℚ := ((round (q * 100) : ℤ) : ℚ) / 100

/-- Python `round(x, 1)`. -/
def round1 (q : ℚ) : ℚ := ((round (q * 10) : ℤ) : ℚ) / 10

/-- `AIProcessor._calculate_trend` (`ai_processor.py` 138-146): percentage
change between the mean of `values[:min(5, n)]` and the mean of
`values[-min(5, n):]`, rounded to two decimals; `0` for short series or a
zero baseline. -/
def calculate_trend (values : List ℚ) : ℚ :=
  if values.length < 2 then 0
  else
    let start_avg := mean (values.take (min 5 values.length))
    let end_avg := mean (values.drop (values.length - min 5 values.length))
    if start_avg = 0 then 0
    else round2 ((end_avg - start_avg) / start_avg * 100)

/-- Trend as worded by the specification: percentage change between the mean
of the first `min(5, n)` samples and the mean of the last `min(5, n)` samples
(here written by reversing, taking, and reversing back), `0` if fewer than 2
samples or the baseline mean is `0`. -/
def trend_spec (values : List ℚ) : ℚ :=
  if values.length < 2 then 0
  else
    let k := min 5 values.length
    let baseline := mean (values.take k)
    let recent := mean ((values.reverse.take k).reverse)
    if baseline = 0 then 0
    else round2 ((recent - baseline) / baseline * 100)

/-- Hour of day of a model timestamp measured in minutes. -/
def hour_of (ts : ℕ) : ℕ := ts / 60 % 24

/-- One step of the `hours.setdefault(hour, []).append(val)` loop in
`_find_peak_hours`: Python dicts preserve insertion order, so the dict is a
list of buckets in order of first appearance of each hour. -/
def add_sample (acc : List (ℕ × List ℚ)) (h : ℕ) (v : ℚ) : List (ℕ × List ℚ) :=
  if acc.any fun p => p.1 = h then
    acc.map fun p => if p.1 = h then (p.1, p.2 ++ [v]) else p
  else acc ++ [(h, [v])]

/-- The `hours` dict of `_find_peak_hours` built over the zipped samples. -/
def hours_dict (samples : List (ℕ × ℚ)) : List (ℕ × List ℚ) :=
  samples.foldl (fun acc s => add_sample acc (hour_of s.1) s.2) []

/-- The `avg_by_hour` dict of `_find_peak_hours`: mean value per hour bucket,
in dict (first-appearance) order. -/
def avg_by_hour (samples : List (ℕ × ℚ)) : List (ℕ × ℚ) :=
  (hours_dict samples).map fun p => (p.1, mean p.2)

/-- Ordering used by `sorted(avg_by_hour.items(), key=lambda x: x[1],
reverse=True)`: descending by average value. -/
def peak_sort_le (a b : ℕ × ℚ) : Prop := b.2 ≤ a.2

instance : DecidableRel peak_sort_le :=
  fun a b => inferInstanceAs (Decidable (b.2 ≤ a.2))

instance : IsTotal (ℕ × ℚ) peak_sort_le :=
  ⟨fun a b => le_total b.2 a.2⟩

instance : IsTrans (ℕ × ℚ) peak_sort_le :=
  ⟨fun _ _ _ h1 h2 => le_trans h2 h1⟩

/-- The stable descending sort of the per-hour averages (Python's `sorted` is
stable, so ties keep dict order). -/
def peak_ranking (samples : List (ℕ × ℚ)) : List (ℕ × ℚ) :=
  (avg_by_hour samples).insertionSort peak_sort_le

/-- `AIProcessor._find_peak_hours` (`ai_processor.py` 185-208): bucket by hour
of day, average per bucket, return the top 3 by average (descending), each
with its average rounded to one decimal. -/
def find_peak_hours (timestamps : List ℕ) (values : List ℚ) : List (ℕ × ℚ) :=
  if timestamps = [] ∨ values = [] then []
  else
    ((peak_ranking (timestamps.zip values)).take 3).map fun p => (p.1, round1 p.2)

/-- Fresh primary key for an insert into the configuration table. -/
def fresh_pk (rows : List (ℕ × SystemConfiguration)) : ℕ :=
  (rows.map Prod.fst).foldr max 0 + 1

/-- `SystemConfiguration.save` (`models.py` 148-152) against a table of
`(pk, row)` pairs: a save of an instance without a primary key while any row
exists raises `ValueError`; otherwise the row is inserted (fresh pk) or the
row with the same pk is updated. -/
def save_config (rows : List (ℕ × SystemConfiguration)) (pk : Option ℕ)
    (c : SystemConfiguration) : Except String (List (ℕ × SystemConfiguration)) :=
  if pk = none ∧ rows ≠ [] then
    Except.error "Only one SystemConfiguration instance allowed"
  else
    match pk with
    | none => Except.ok (rows ++ [(fresh_pk rows, c)])
    | some k =>
      if rows.any fun r => r.1 = k then
        Except.ok (rows.map fun r => if r.1 = k then (k, c) else r)
      else Except.ok (rows ++ [(k, c)])

/-- Rendering of a rational into the alert message strings (stand-in for
Python's float formatting; no claim depends on the exact digits). -/
def ratStr (q : ℚ) : String := toString q.num ++ "/" ++ toString q.den

/-- Rendering of an optional string inside an f-string (Python prints `None`
for a missing value). -/
def optStr : Option String → String
  | some s => s
  | none => "None"

/-- Query `ExamSchedule.objects.filter(start_time__lte=now, end_time__gte=now,
is_active=True)` from `run_automation` (`views.py` 159-163). -/
def ongoing_exams (schedules : List ExamSchedule) (now : ℚ) : List ExamSchedule :=
  schedules.filter fun e =>
    decide (e.start_time ≤ now) && decide (now ≤ e.end_time) && e.is_active

/-- Ordering used by `ExamSchedule.Meta.ordering = ['-start_time']`
(`models.py` 187-188): descending by start time. -/
def exam_le (a b : ExamSchedule) : Prop := b.start_time ≤ a.start_time

instance : DecidableRel exam_le :=
  fun a b => inferInstanceAs (Decidable (b.start_time ≤ a.start_time))

instance : IsTotal ExamSchedule exam_le :=
  ⟨fun a b => le_total b.start_time a.start_time⟩

instance : IsTrans ExamSchedule exam_le :=
  ⟨fun _ _ _ h1 h2 => le_trans h2 h1⟩

/-- The `.first()` of the ongoing-exams queryset: head of the queryset under
the model's default descending-start-time ordering (a stable sort
determinizes the order of rows with equal start times, which the database
leaves unspecified). -/
def first_ongoing_exam (schedules : List ExamSchedule) (now : ℚ) :
    Option ExamSchedule :=
  ((ongoing_exams schedules now).insertionSort exam_le).head?

/-- The `noise_threshold` local of `run_automation` (`views.py` 165-169):
the strict threshold of the selected ongoing exam window, else the
configured one. -/
def effective_noise_threshold (config : SystemConfiguration)
    (schedules : List ExamSchedule) (now : ℚ) : ℚ :=
  match first_ongoing_exam schedules now with
  | some e => e.strict_noise_threshold
  | none => config.noise_threshold

/-- `activate_device` (`views.py` 216-225): set every control device of the
given type active and stamp `last_activated`. -/
def activate_device (device_type : String) (devices : List ControlDevice)
    (now : ℚ) : List ControlDevice :=
  devices.map fun d =>
    if d.device_type = device_type then
      { d with is_active := true, last_activated := some now }
    else d

/-- `send_alert` (`views.py` 240-275): create one `AlertLog` row for the SMS
channel addressed to the guard phone and one for the EMAIL channel addressed
to the admin email, both carrying the same kind, message and severity and
referencing the same reading. -/
def send_alert (alert_type : AlertType) (env_data : EnvironmentalData)
    (message : String) (config : SystemConfiguration) (severity : String)
    (now : ℚ) : List AlertLog :=
  [ { data := some env_data.id
      alert_type := alert_type
      severity := severity
      channel := "SMS"
      message := message
      recipient := config.guard_phone
      created_at := now
      is_resolved := false },
    { data := some env_data.id
      alert_type := alert_type
      severity := severity
      channel := "EMAIL"
      message := message
      recipient := config.admin_email
      created_at := now
      is_resolved := false } ]

/-- Result dict of `run_automation`. -/
structure AutomationResults where
  ac_activated : Bool
  ventilation_activated : Bool
  alerts_sent : List String
  deriving DecidableEq, Repr

/-- Full state produced by one `run_automation` call: the annotated reading,
the control-device table, the alert-log table, and the result dict. -/
structure AutomationOutcome where
  env_data : EnvironmentalData
  devices : List ControlDevice
  logs : List AlertLog
  results : AutomationResults
  deriving DecidableEq, Repr

/-- Block 1 of `run_automation` (`views.py` 171-181): temperature control. -/
def temp_rule (config : SystemConfiguration) (now : ℚ) (st : AutomationOutcome) :
    AutomationOutcome :=
  if st.env_data.temperature > config.temp_threshold ∧ config.auto_ac_enabled then
    let devices1 := activate_device "AC" st.devices now
    let env1 := { st.env_data with ac_activated := true }
    let res1 := { st.results with ac_activated := true }
    if config.alerts_enabled ∧ should_send_alert AlertType.TEMP_HIGH config st.logs now then
      ⟨env1, devices1,
       st.logs ++ send_alert AlertType.TEMP_HIGH env1
         ("High temperature: " ++ ratStr env1.temperature ++ "°C. AC activated.")
         config "medium" now,
       { res1 with alerts_sent := res1.alerts_sent ++ ["temperature"] }⟩
    else ⟨env1, devices1, st.logs, res1⟩
  else st

/-- Block 2 of `run_automation` (`views.py` 183-193): air-quality control. -/
def air_rule (config : SystemConfiguration) (now : ℚ) (st : AutomationOutcome) :
    AutomationOutcome :=
  if st.env_data.air_quality > config.air_quality_threshold ∧ config.auto_ventilation_enabled then
    let devices2 := activate_device "FAN" st.devices now
    let env2 := { st.env_data with ventilation_activated := true }
    let res2 := { st.results with ventilation_activated := true }
    if config.alerts_enabled ∧ should_send_alert AlertType.AIR_POOR config st.logs now then
      ⟨env2, devices2,
       st.logs ++ send_alert AlertType.AIR_POOR env2
         ("Poor air quality: " ++ ratStr env2.air_quality ++ " AQI. Ventilation activated.")
         config "medium" now,
       { res2 with alerts_sent := res2.alerts_sent ++ ["air_quality"] }⟩
    else ⟨env2, devices2, st.logs, res2⟩
  else st

/-- Block 3 of `run_automation` (`views.py` 195-202): noise control, against
the resolved noise threshold.  No device actuation occurs in this block. -/
def noise_rule (config : SystemConfiguration) (noise_threshold : ℚ) (now : ℚ)
    (st : AutomationOutcome) : AutomationOutcome :=
  if st.env_data.noise_level > noise_threshold then
    if config.alerts_enabled ∧ should_send_alert AlertType.NOISE_HIGH config st.logs now then
      { st with
          env_data := { st.env_data with alert_sent := true }
          logs := st.logs ++ send_alert AlertType.NOISE_HIGH st.env_data
            ("High noise: " ++ ratStr st.env_data.noise_level ++ " dB detected!")
            config "high" now
          results := { st.results with alerts_sent := st.results.alerts_sent ++ ["noise"] } }
    else st
  else st

/-- Block 4 of `run_automation` (`views.py` 204-210): rule-based anomaly
alerting. -/
def anomaly_rule (config : SystemConfiguration) (now : ℚ) (st : AutomationOutcome) :
    AutomationOutcome :=
  if st.env_data.is_anomaly ∧ config.ai_analysis_enabled then
    if config.alerts_enabled ∧ should_send_alert AlertType.ANOMALY config st.logs now then
      { st with
          logs := st.logs ++ send_alert AlertType.ANOMALY st.env_data
            ("Anomaly detected: " ++ optStr st.env_data.anomaly_type)
            config "medium" now
          results := { st.results with alerts_sent := st.results.alerts_sent ++ ["anomaly"] } }
    else st
  else st

/-- Body of `run_automation` (`views.py` 150-213) after the noise threshold
has been resolved: the four rule blocks evaluated in source order, threading
the reading annotations, device table, alert table and result dict. -/
def run_automation_core (env0 : EnvironmentalData) (config : SystemConfiguration)
    (noise_threshold : ℚ) (devices0 : List ControlDevice) (logs0 : List AlertLog)
    (now : ℚ) : AutomationOutcome :=
  anomaly_rule config now
    (noise_rule config noise_threshold now
      (air_rule config now
        (temp_rule config now
          ⟨env0, devices0, logs0,
           { ac_activated := false, ventilation_activated := false, alerts_sent := [] }⟩)))

/-- `run_automation` (`views.py` 150-213): the noise threshold is resolved
once from the ongoing exam windows, then the rule blocks run. -/
def run_automation (env0 : EnvironmentalData) (config : SystemConfiguration)
    (schedules : List ExamSchedule) (devices0 : List ControlDevice)
    (logs0 : List AlertLog) (now : ℚ) : AutomationOutcome :=
  run_automation_core env0 config (effective_noise_threshold config schedules now)
    devices0 logs0 now

/-- Rule-based anomaly classification of `receive_sensor_data`
(`views.py` 106-121): priority order temperature, then noise against the
base `config.noise_threshold`, then air quality. -/
def classify_anomaly (env : EnvironmentalData) (config : SystemConfiguration) :
    EnvironmentalData :=
  let env1 := { env with is_anomaly := false, ai_score := none, anomaly_type := none }
  if env1.temperature > config.temp_threshold then
    { env1 with is_anomaly := true, anomaly_type := some "high_temperature" }
  else if env1.noise_level > config.noise_threshold then
    { env1 with is_anomaly := true, anomaly_type := some "high_noise" }
  else if env1.air_quality > config.air_quality_threshold then
    { env1 with is_anomaly := true, anomaly_type := some "poor_air_quality" }
  else env1

/-- Classification as worded by the specification (for comparison with
`classify_anomaly`): the noise comparison uses the same effective, possibly
exam-overridden noise threshold as the noise alert rule. -/
def classify_anomaly_spec (env : EnvironmentalData) (config : SystemConfiguration)
    (schedules : List ExamSchedule) (now : ℚ) : EnvironmentalData :=
  let env1 := { env with is_anomaly := false, ai_score := none, anomaly_type := none }
  if env1.temperature > config.temp_threshold then
    { env1 with is_anomaly := true, anomaly_type := some "high_temperature" }
  else if env1.noise_level > effective_noise_threshold config schedules now then
    { env1 with is_anomaly := true, anomaly_type := some "high_noise" }
  else if env1.air_quality > config.air_quality_threshold then
    { env1 with is_anomaly := true, anomaly_type := some "poor_air_quality" }
  else env1

/-- The per-reading pipeline of `receive_sensor_data` after the reading has
been stored: classify, then run the automation rules. -/
def process_reading (env : EnvironmentalData) (config : SystemConfiguration)
    (schedules : List ExamSchedule) (devices : List ControlDevice)
    (logs : List AlertLog) (now : ℚ) : AutomationOutcome :=
  run_automation (classify_anomaly env config) config schedules devices logs now

/-- Value of one numeric field of the ingestion payload: absent, a value
Python's `float()` accepts, or a value it rejects. -/
inductive JsonValue where
  | num (q : ℚ)
  | malformed
  deriving DecidableEq, Repr

/-- The `float(data.get(key, 0))` idiom of `receive_sensor_data`
(`views.py` 96-98): a missing field defaults to `0`, a malformed one raises
`ValueError`. -/
def parse_float : Option JsonValue → Except String ℚ
  | none => Except.ok 0
  | some (JsonValue.num q) => Except.ok q
  | some JsonValue.malformed => Except.error "could not convert value to float"

/-- Numeric fields of an ingestion request. -/
structure SensorPayload where
  temperature : Option JsonValue
  air_quality : Option JsonValue
  noise_level : Option JsonValue
  deriving DecidableEq, Repr

/-- Construction of the `EnvironmentalData` row in `receive_sensor_data`
(`views.py` 94-99): the three field conversions are evaluated left to right
and the row is only created when all of them succeed. -/
def build_reading (p : SensorPayload) (id : ℕ) (now : ℚ) :
    Except String EnvironmentalData :=
  match parse_float p.temperature with
  | Except.error e => Except.error e
  | Except.ok t =>
    match parse_float p.air_quality with
    | Except.error e => Except.error e
    | Except.ok a =>
      match parse_float p.noise_level with
      | Except.error e => Except.error e
      | Except.ok n =>
        Except.ok
          { id := id
            timestamp := now
            temperature := t
            air_quality := a
            noise_level := n
            ai_score := none
            anomaly_type := none
            is_anomaly := false
            ac_activated := false
            ventilation_activated := false
            alert_sent := false }

/-! Concrete records used by the counterexamples and witness instantiations. -/

/-- An alert log row of kind TEMP_HIGH created at time 0. -/
def cexLog : AlertLog :=
  { data := some 1, alert_type := AlertType.TEMP_HIGH, severity := "medium",
    channel := "SMS", message := "m", recipient := "r", created_at := 0,
    is_resolved := false }

/-- An active exam window starting at time 0. -/
def examA : ExamSchedule :=
  { exam_name := "A", start_time := 0, end_time := 100, room := "r1",
    is_active := true, strict_noise_threshold := 50 }

/-- An active exam window starting at time 10, overlapping `examA`. -/
def examB : ExamSchedule :=
  { exam_name := "B", start_time := 10, end_time := 100, room := "r2",
    is_active := true, strict_noise_threshold := 40 }

/-- An active exam window with a strict threshold of 50. -/
def examC : ExamSchedule :=
  { exam_name := "CS101 final", start_time := 0, end_time := 100, room := "LT1",
    is_active := true, strict_noise_threshold := 50 }

/-- A reading whose noise level (55) lies between an exam strict threshold
(50) and the configured threshold (60). -/
def readingC3 : EnvironmentalData :=
  { id := 7, timestamp := 20, temperature := 20, air_quality := 30, noise_level := 55,
    ai_score := none, anomaly_type := none, is_anomaly := false,
    ac_activated := false, ventilation_activated := false, alert_sent := false }

/-- A reading whose noise level (70) exceeds the configured threshold (60). -/
def readingC4 : EnvironmentalData :=
  { id := 8, timestamp := 0, temperature := 20, air_quality := 30, noise_level := 70,
    ai_score := none, anomaly_type := none, is_anomaly := false,
    ac_activated := false, ventilation_activated := false, alert_sent := false }

/-- An inactive SCREEN-category control device. -/
def screenDev : ControlDevice :=
  { name := "lab screen", device_type := "SCREEN", location := "C4DLab",
    is_active := false, last_activated := none }

/-- The SMS delivery row that `send_alert AlertType.NOISE_HIGH readingC4 "m"
defaultConfig "high" 3` creates first. -/
def wLog : AlertLog :=
  { data := some 8, alert_type := AlertType.NOISE_HIGH, severity := "high",
    channel := "SMS", message := "m", recipient := "+254700000000", created_at := 3,
    is_resolved := false }

/-! Helper lemmas shared by the claim theorems. -/

/-- The cooldown check blocks exactly when some log row of the same kind has
`created_at` at or after `now - alert_cooldown_minutes`. -/
theorem cooldown_blocked_iff (k : AlertType) (config : SystemConfiguration)
    (logs : List AlertLog) (now : ℚ) :
    should_send_alert k config logs now = false ↔
      ∃ a ∈ logs, a.alert_type = k ∧
        now - (config.alert_cooldown_minutes : ℚ) ≤ a.created_at := by
  simp [should_send_alert, List.any_eq_true]

/-- A device of a different type is untouched by `activate_device`. -/
theorem mem_activate_of_ne {d : ControlDevice} {devices : List ControlDevice}
    (s : String) (now : ℚ) (hd : d ∈ devices) (hne : d.device_type ≠ s) :
    d ∈ activate_device s devices now :=
  List.mem_map.mpr ⟨d, hd, by simp [hne]⟩

/-- The temperature block leaves the device table unchanged or activates the
AC category. -/
theorem temp_rule_devices (config : SystemConfiguration) (now : ℚ)
    (st : AutomationOutcome) :
    (temp_rule config now st).devices = st.devices ∨
    (temp_rule config now st).devices = activate_device "AC" st.devices now := by
  unfold temp_rule
  split_ifs <;> simp

/-- The air-quality block leaves the device table unchanged or activates the
FAN category. -/
theorem air_rule_devices (config : SystemConfiguration) (now : ℚ)
    (st : AutomationOutcome) :
    (air_rule config now st).devices = st.devices ∨
    (air_rule config now st).devices = activate_device "FAN" st.devices now := by
  unfold air_rule
  split_ifs <;> simp

/-- The noise block never modifies the device table. -/
theorem noise_rule_devices (config : SystemConfiguration) (nt now : ℚ)
    (st : AutomationOutcome) :
    (noise_rule config nt now st).devices = st.devices := by
  unfold noise_rule
  split_ifs <;> rfl

/-- The anomaly block never modifies the device table. -/
theorem anomaly_rule_devices (config : SystemConfiguration) (now : ℚ)
    (st : AutomationOutcome) :
    (anomaly_rule config now st).devices = st.devices := by
  unfold anomaly_rule
  split_ifs <;> rfl

/-! Claim C1 (cooldown interval). -/

/-- Claim C1 counterexample: with the default 5-minute cooldown and a
TEMP_HIGH alert created at time 0, a second TEMP_HIGH check at time 5 — Δt
exactly equal to the cooldown, where the claim requires the alert to fire —
returns false (suppressed). -/
theorem cooldown_boundary_suppressed :
    cexLog.created_at + (defaultConfig.alert_cooldown_minutes : ℚ) = 5 ∧
    cexLog.alert_type = AlertType.TEMP_HIGH ∧
    should_send_alert AlertType.TEMP_HIGH defaultConfig [cexLog] 5 = false := by
  refine ⟨by norm_num [cexLog, defaultConfig], rfl, ?_⟩
  norm_num [should_send_alert, cexLog, defaultConfig, List.any]

/-- Claim C1 (amended): the cooldown check returns false iff an alert record
of the same kind has `created_at` at or after `now - cooldown_minutes` (a
closed lower bound, so for past alerts the interval is `[now - cooldown,
now]`); consequently, for two readings Δt apart the second alert is
suppressed iff Δt ≤ cooldown_minutes — at Δt exactly equal to the cooldown it
is suppressed, not fired. -/
theorem cooldown_suppression_characterization (k : AlertType)
    (config : SystemConfiguration) (logs : List AlertLog) (now : ℚ) :
    (should_send_alert k config logs now = false ↔
      ∃ a ∈ logs, a.alert_type = k ∧
        now - (config.alert_cooldown_minutes : ℚ) ≤ a.created_at) ∧
    (∀ (a : AlertLog) (Δt : ℚ), a.alert_type = k → now = a.created_at + Δt →
      (should_send_alert k config [a] now = false ↔
        Δt ≤ (config.alert_cooldown_minutes : ℚ))) := by
  refine ⟨cooldown_blocked_iff k config logs now, ?_⟩
  intro a Δt hk hnow
  subst hnow
  rw [cooldown_blocked_iff]
  constructor
  · rintro ⟨b, hb, hbk, hble⟩
    rcases List.mem_singleton.mp hb with rfl
    linarith
  · intro hle
    exact ⟨a, List.mem_singleton_self a, hk, by linarith⟩

/-- Claim C1 witness: the characterization applied to one TEMP_HIGH log at
time 0 and a check at Δt = 6 against the default 5-minute cooldown. -/
theorem cooldown_suppression_characterization_check :
    should_send_alert AlertType.TEMP_HIGH defaultConfig [cexLog]
        (cexLog.created_at + 6) = false ↔
      (6 : ℚ) ≤ (defaultConfig.alert_cooldown_minutes : ℚ) :=
  (cooldown_suppression_characterization AlertType.TEMP_HIGH defaultConfig [cexLog]
    (cexLog.created_at + 6)).2 cexLog 6 rfl rfl

/-! Claim C2 (exam window tie-break). -/

/-- Claim C2 counterexample: two simultaneously ongoing active windows with
start times 0 and 10; the resolver picks the one starting at 10 (the latest,
per the model ordering by descending start time), whose strict threshold 40
becomes effective — not the earliest-start window's 50. -/
theorem exam_pick_not_earliest_start :
    examA.start_time < examB.start_time ∧
    ongoing_exams [examA, examB] 20 = [examA, examB] ∧
    first_ongoing_exam [examA, examB] 20 = some examB ∧
    effective_noise_threshold defaultConfig [examA, examB] 20 = 40 ∧
    examA.strict_noise_threshold = 50 := by
  refine ⟨by norm_num [examA, examB], by decide, by decide, by decide, rfl⟩

/-- Claim C2 (amended): when several exam windows are simultaneously ongoing,
the resolver deterministically selects a window with the latest (maximal)
start time — the model's `Meta.ordering = ['-start_time']` sorts descending
and `.first()` takes the head — and that window's `strict_noise_threshold`
becomes the effective noise threshold. -/
theorem exam_pick_latest_start (schedules : List ExamSchedule) (now : ℚ)
    (e : ExamSchedule) (h : first_ongoing_exam schedules now = some e) :
    e ∈ ongoing_exams schedules now ∧
    (∀ f ∈ ongoing_exams schedules now, f.start_time ≤ e.start_time) ∧
    ∀ config : SystemConfiguration,
      effective_noise_threshold config schedules now = e.strict_noise_threshold := by
  have hsorted : List.Sorted exam_le ((ongoing_exams schedules now).insertionSort exam_le) :=
    List.sorted_insertionSort exam_le (ongoing_exams schedules now)
  have hperm : List.Perm ((ongoing_exams schedules now).insertionSort exam_le)
      (ongoing_exams schedules now) :=
    List.perm_insertionSort exam_le (ongoing_exams schedules now)
  unfold first_ongoing_exam at h
  cases hq : (ongoing_exams schedules now).insertionSort exam_le with
  | nil => rw [hq] at h; simp at h
  | cons x t =>
    rw [hq] at h
    simp only [List.head?_cons, Option.some.injEq] at h
    subst h
    rw [hq] at hsorted hperm
    refine ⟨hperm.mem_iff.mp (List.mem_cons_self _ _), ?_, ?_⟩
    · intro f hf
      rcases List.mem_cons.mp (hperm.mem_iff.mpr hf) with hfe | hft
      · exact le_of_eq (by rw [hfe])
      · exact List.rel_of_sorted_cons hsorted f hft
    · intro config
      unfold effective_noise_threshold first_ongoing_exam
      rw [hq]
      rfl

/-- Claim C2 witness: applied to the two overlapping windows, the effective
threshold is the strict threshold of the later-starting window. -/
theorem exam_pick_latest_start_check :
    effective_noise_threshold defaultConfig [examA, examB] 20 =
      examB.strict_noise_threshold :=
  (exam_pick_latest_start [examA, examB] 20 examB (by decide)).2.2 defaultConfig

/-! Claim C3 (threshold snapshot shared by all four checks). -/

/-- Claim C3 counterexample: with an ongoing exam window (strict threshold 50)
and the default configuration (noise threshold 60), a reading with noise 55
fires the NOISE_HIGH alert, yet the anomaly classification — which the claim
says uses the same effective threshold — marks the reading as not anomalous;
the spec-worded classification over the effective threshold would mark it
anomalous. -/
theorem anomaly_threshold_mismatch :
    effective_noise_threshold defaultConfig [examC] 20 = 50 ∧
    (classify_anomaly readingC3 defaultConfig).is_anomaly = false ∧
    (classify_anomaly_spec readingC3 defaultConfig [examC] 20).is_anomaly = true ∧
    (process_reading readingC3 defaultConfig [examC] [] [] 20).results.alerts_sent
      = ["noise"] ∧
    (process_reading readingC3 defaultConfig [examC] [] [] 20).env_data.is_anomaly
      = false := by
  refine ⟨by decide, by decide, by decide, by decide, by decide⟩

/-- Claim C3 (amended): the automation rules all read one noise threshold
resolved once per reading, but the anomaly classification performed at
ingestion compares noise against the base `SystemConfig.noise_threshold`,
not the exam-overridden effective threshold; the two classifications agree
whenever the effective threshold equals the configured one (in particular
when no exam window is ongoing). -/
theorem anomaly_uses_base_threshold (env : EnvironmentalData)
    (config : SystemConfiguration) (schedules : List ExamSchedule)
    (devices : List ControlDevice) (logs : List AlertLog) (now : ℚ) :
    (effective_noise_threshold config schedules now = config.noise_threshold →
      classify_anomaly_spec env config schedules now = classify_anomaly env config) ∧
    run_automation env config schedules devices logs now =
      run_automation_core env config (effective_noise_threshold config schedules now)
        devices logs now := by
  constructor
  · intro h
    unfold classify_anomaly_spec classify_anomaly
    rw [h]
  · rfl

/-- Claim C3 witness: with no exam window the spec-worded classification and
the implemented one coincide. -/
theorem anomaly_uses_base_threshold_check :
    classify_anomaly_spec readingC3 defaultConfig [] 20 =
      classify_anomaly readingC3 defaultConfig :=
  (anomaly_uses_base_threshold readingC3 defaultConfig [] [] [] 20).1 rfl

/-! Claim C4 (SCREEN actuation on noise alerts). -/

/-- Claim C4 counterexample: a reading with noise 70 over the default
threshold 60 fires the NOISE_HIGH alert, yet the provisioned SCREEN device is
left exactly as it was — inactive, never activated. -/
theorem no_screen_actuation_on_noise_alert :
    screenDev.device_type = "SCREEN" ∧ screenDev.is_active = false ∧
    (run_automation readingC4 defaultConfig [] [screenDev] [] 0).results.alerts_sent
      = ["noise"] ∧
    (run_automation readingC4 defaultConfig [] [screenDev] [] 0).devices
      = [screenDev] := by
  refine ⟨rfl, rfl, by decide, by decide⟩

/-- Claim C4 (amended): the noise alert triggers no device actuation at all;
`run_automation` only ever actuates the AC and FAN categories, so every
device of any other category — SCREEN in particular — passes through
automation unchanged, whether or not the noise alert fires. -/
theorem automation_devices_untouched (env : EnvironmentalData)
    (config : SystemConfiguration) (schedules : List ExamSchedule)
    (devices : List ControlDevice) (logs : List AlertLog) (now : ℚ) :
    ∀ d ∈ devices, d.device_type ≠ "AC" → d.device_type ≠ "FAN" →
      d ∈ (run_automation env config schedules devices logs now).devices := by
  intro d hd hac hfan
  unfold run_automation run_automation_core
  rw [anomaly_rule_devices, noise_rule_devices]
  rcases air_rule_devices config now (temp_rule config now ⟨env, devices, logs, _⟩)
      with h | h <;>
    rw [h] <;>
  rcases temp_rule_devices config now ⟨env, devices, logs, _⟩ with h2 | h2 <;> rw [h2]
  · exact hd
  · exact mem_activate_of_ne _ _ hd hac
  · exact mem_activate_of_ne _ _ hd hfan
  · exact mem_activate_of_ne _ _ (mem_activate_of_ne _ _ hd hac) hfan

/-- Claim C4 witness: the SCREEN device survives the noise-alert run
unchanged. -/
theorem automation_devices_untouched_check :
    screenDev ∈ (run_automation readingC4 defaultConfig [] [screenDev] [] 0).devices :=
  automation_devices_untouched readingC4 defaultConfig [] [screenDev] [] 0 screenDev
    (List.mem_singleton_self screenDev) (by decide) (by decide)

/-! Claim C5 (alert fan-out channels). -/

/-- Claim C5 counterexample: dispatching one alert creates exactly 2 delivery
records — SMS and EMAIL — not the 3 (including SCREEN) the claim states. -/
theorem dispatch_creates_two_records :
    (send_alert AlertType.TEMP_HIGH readingC4 "msg" defaultConfig "medium" 0).length = 2 ∧
    (send_alert AlertType.TEMP_HIGH readingC4 "msg" defaultConfig "medium" 0).map
      AlertLog.channel = ["SMS", "EMAIL"] := ⟨rfl, rfl⟩

/-- Claim C5 (amended): dispatching one logical alert creates exactly two
delivery records — SMS addressed to `guard_phone` and EMAIL addressed to
`admin_email`; there is no SCREEN delivery.  Both records carry the same
kind, message, severity and creation time, and reference the same reading
(the records are standalone log rows; no separate alert-event entity
exists). -/
theorem dispatch_records_characterization (k : AlertType)
    (env : EnvironmentalData) (msg : String) (config : SystemConfiguration)
    (sev : String) (now : ℚ) :
    (send_alert k env msg config sev now).map AlertLog.channel = ["SMS", "EMAIL"] ∧
    (send_alert k env msg config sev now).map AlertLog.recipient =
      [config.guard_phone, config.admin_email] ∧
    ∀ a ∈ send_alert k env msg config sev now,
      a.alert_type = k ∧ a.message = msg ∧ a.severity = sev ∧
      a.data = some env.id ∧ a.created_at = now := by
  refine ⟨rfl, rfl, ?_⟩
  intro a ha
  rcases List.mem_cons.mp ha with h | h
  · subst h; exact ⟨rfl, rfl, rfl, rfl, rfl⟩
  · rcases List.mem_cons.mp h with h2 | h2
    · subst h2; exact ⟨rfl, rfl, rfl, rfl, rfl⟩
    · simp at h2

/-- Claim C5 witness: the characterization applied to the SMS row of a
concrete NOISE_HIGH dispatch. -/
theorem dispatch_records_characterization_check :
    wLog.alert_type = AlertType.NOISE_HIGH ∧ wLog.message = "m" ∧
    wLog.severity = "high" ∧ wLog.data = some readingC4.id ∧ wLog.created_at = 3 :=
  (dispatch_records_characterization AlertType.NOISE_HIGH readingC4 "m" defaultConfig
    "high" 3).2.2 wLog (by decide)

/-! Claim C6 (ingestion of malformed or missing fields). -/

/-- Claim C6 counterexample: a request with all three numeric fields missing
does not fail — a full reading is created with every measurement defaulted
to 0 and decision logic proceeds. -/
theorem missing_fields_default_to_zero :
    build_reading { temperature := none, air_quality := none, noise_level := none } 1 0 =
      Except.ok
        { id := 1, timestamp := 0, temperature := 0, air_quality := 0, noise_level := 0,
          ai_score := none, anomaly_type := none, is_anomaly := false,
          ac_activated := false, ventilation_activated := false, alert_sent := false } :=
  rfl

/-- Claim C6 (amended): ingestion fails before any decision logic — and no
reading is created — exactly when some present numeric field is malformed
(rejected by the float conversion); a missing field does not fail: it
silently defaults to 0 and processing continues. -/
theorem ingestion_failure_characterization (p : SensorPayload) (id : ℕ) (now : ℚ) :
    ((build_reading p id now).isOk = false ↔
      p.temperature = some JsonValue.malformed ∨
      p.air_quality = some JsonValue.malformed ∨
      p.noise_level = some JsonValue.malformed) ∧
    (∀ r, build_reading p id now = Except.ok r →
      (p.temperature = none → r.temperature = 0) ∧
      (p.air_quality = none → r.air_quality = 0) ∧
      (p.noise_level = none → r.noise_level = 0)) := by
  obtain ⟨t, a, n⟩ := p
  rcases t with _ | (q | _) <;> rcases a with _ | (q2 | _) <;> rcases n with _ | (q3 | _) <;>
    simp [build_reading, parse_float, Except.isOk, Except.toBool]

/-- Claim C6 witness: a malformed temperature field makes ingestion fail. -/
theorem ingestion_failure_characterization_check :
    (build_reading
      { temperature := some JsonValue.malformed, air_quality := none, noise_level := none }
      1 0).isOk = false :=
  (ingestion_failure_characterization
    { temperature := some JsonValue.malformed, air_quality := none, noise_level := none }
    1 0).1.mpr (Or.inl rfl)

/-! Claim C7 (trend formula and its fixed example). -/

/-- Claim C7: for every metric series, the computed trend equals the
percentage change between the mean of the first `min(5, n)` samples and the
mean of the last `min(5, n)` samples, rounded to two decimals, and is 0 for
series shorter than 2 or a zero baseline; on the fixed sequence
[20, 21, 22, 23, 24, 30, 31, 32, 33, 34] the trend is 45.45. -/
theorem trend_matches_spec_and_example :
    (∀ values : List ℚ, calculate_trend values = trend_spec values) ∧
    calculate_trend [20, 21, 22, 23, 24, 30, 31, 32, 33, 34] = 4545 / 100 := by
  constructor
  · intro values
    simp only [calculate_trend, trend_spec, ← List.rtake_eq_reverse_take_reverse,
      List.rtake]
  · norm_num [calculate_trend, mean, round2, round_eq, List.take, List.drop,
      Int.floor_eq_iff]

/-! Claim C8 (peak-hour ranking tie-break). -/

/-- Claim C8 counterexample: two samples of equal noise at hours 14 and 9 —
hour 14 first in the input.  The ranking returns hour 14 before hour 9,
refuting the claim that equal-mean ties resolve in favor of the numerically
smaller hour. -/
theorem peak_tie_keeps_first_appearance :
    hour_of 840 = 14 ∧ hour_of 1980 = 9 ∧
    find_peak_hours [840, 1980] [50, 50] = [(14, 50), (9, 50)] := by
  refine ⟨rfl, rfl, ?_⟩
  rw [find_peak_hours, if_neg (by simp)]
  norm_num [peak_ranking, avg_by_hour, hours_dict, add_sample,
    hour_of, mean, round1, round_eq, List.insertionSort, List.orderedInsert,
    peak_sort_le, List.foldl, List.zip, List.zipWith]

/-- Claim C8 (amended): the ranking buckets samples by hour of day, averages
noise per bucket, sorts the buckets in descending order of mean (a stable
sort over the buckets in order of each hour's first appearance in the
input), and returns the top 3 with rounded averages; ties between buckets of
equal mean keep first-appearance order, not ascending hour order. -/
theorem peak_hours_characterization (timestamps : List ℕ) (values : List ℚ) :
    List.Sorted peak_sort_le (peak_ranking (timestamps.zip values)) ∧
    List.Perm (peak_ranking (timestamps.zip values))
      (avg_by_hour (timestamps.zip values)) ∧
    (∀ p q : ℕ × ℚ, List.Sublist [p, q] (avg_by_hour (timestamps.zip values)) →
      q.2 ≤ p.2 → List.Sublist [p, q] (peak_ranking (timestamps.zip values))) ∧
    (timestamps ≠ [] → values ≠ [] →
      find_peak_hours timestamps values =
        ((peak_ranking (timestamps.zip values)).take 3).map fun p => (p.1, round1 p.2)) := by
  refine ⟨List.sorted_insertionSort peak_sort_le _,
    List.perm_insertionSort peak_sort_le _, ?_, ?_⟩
  · intro p q hsub hle
    exact List.pair_sublist_insertionSort hle hsub
  · intro ht hv
    rw [find_peak_hours, if_neg]
    simp [ht, hv]

/-- Claim C8 witness: the characterization applied to the concrete
two-sample input. -/
theorem peak_hours_characterization_check :
    find_peak_hours [840, 1980] [50, 50] =
      ((peak_ranking ([840, 1980].zip [50, 50])).take 3).map
        (fun p => (p.1, round1 p.2)) :=
  (peak_hours_characterization [840, 1980] [50, 50]).2.2.2 (by simp) (by simp)

/-! Claim C9 (configuration singleton). -/

/-- Claim C9: saving a configuration instance without a primary key while any
row exists fails with the `ValueError` message and leaves the table
untouched (the error carries no new table); on an empty table the first save
succeeds and creates the single row. -/
theorem config_singleton_enforced (rows : List (ℕ × SystemConfiguration))
    (c : SystemConfiguration) :
    (rows ≠ [] → save_config rows none c =
      Except.error "Only one SystemConfiguration instance allowed") ∧
    (rows = [] → save_config rows none c = Except.ok [(1, c)]) := by
  constructor
  · intro hne
    unfold save_config
    rw [if_pos ⟨rfl, hne⟩]
  · intro he
    subst he
    simp [save_config, fresh_pk]

/-- Claim C9 witness: a second create against a one-row table fails. -/
theorem config_singleton_enforced_check :
    save_config [(1, defaultConfig)] none defaultConfig =
      Except.error "Only one SystemConfiguration instance allowed" :=
  (config_singleton_enforced [(1, defaultConfig)] defaultConfig).1 (by simp)

/-! Claim C10 (trend on short series). -/

/-- Claim C10: every series with between 2 and 5 samples has trend exactly 0,
because both windows are the whole series; a non-zero trend requires at
least 6 samples. -/
theorem trend_zero_for_short_series (values : List ℚ) :
    (2 ≤ values.length → values.length ≤ 5 → calculate_trend values = 0) ∧
    (calculate_trend values ≠ 0 → 6 ≤ values.length) := by
  have key : 2 ≤ values.length → values.length ≤ 5 → calculate_trend values = 0 := by
    intro h2 h5
    have hmin : min 5 values.length = values.length := min_eq_right h5
    simp only [calculate_trend, hmin, List.take_length, Nat.sub_self, List.drop_zero]
    rw [if_neg (by omega)]
    split
    · rfl
    · simp [round2]
  refine ⟨key, ?_⟩
  intro hne
  by_contra hlt
  push_neg at hlt
  rcases Nat.lt_or_ge values.length 2 with h | h
  · exact hne (by simp [calculate_trend, if_pos h])
  · exact hne (key h (by omega))

/-- Claim C10 witness: a two-sample series has trend 0. -/
theorem trend_zero_for_short_series_check : calculate_trend [1, 2] = 0 :=
  (trend_zero_for_short_series [1, 2]).1 (by decide) (by decide)

end EcoGuardian
